import Mathlib

/-!
Verification development for the SolanaSniper trading bot.

The definitions below are a shallow embedding of the Python sources:
`src/strategy/exit_strategies.py`, `src/data/api_client.py` and
`src/execution/trade_manager.py`.  Python floats are modelled as rationals,
Python dict fields that the code may leave absent are modelled as `Option`
fields (`dict.get(k, d)` becomes `Option.getD`), wall-clock instants are
rationals (seconds), and every interaction with an external collaborator
(wallet, swap router, market-data API, clock) is supplied through an explicit
environment record so that each function is a pure state transformer.
-/

namespace SolanaSniper

/-- Python `int(x)` truncation toward zero, on rationals. -/
def pyTrunc (q : ℚ) : ℤ := if 0 ≤ q then ⌊q⌋ else ⌈q⌉

/-- Does the character list start with the given pattern? -/
def startsWithChars : List Char → List Char → Bool
  | [], _ => true
  | _ :: _, [] => false
  | c :: cs, d :: ds => (c == d) && startsWithChars cs ds

/-- Does the pattern occur somewhere in the character list? -/
def containsSub (pat : List Char) : List Char → Bool
  | [] => startsWithChars pat []
  | c :: rest => startsWithChars pat (c :: rest) || containsSub pat rest

/-- Python `pat in s` substring test. -/
def strContains (s pat : String) : Bool := containsSub pat.data s.data

/-- Python truthiness of an optional number: `None` and `0` are falsy. -/
def pyTruthyQ : Option ℚ → Bool
  | none => false
  | some x => decide (x ≠ 0)

/-- Python truthiness of an optional string: `None` and the empty string are falsy. -/
def pyTruthyS : Option String → Bool
  | none => false
  | some s => decide (s ≠ "")

/-- One position dict of the trade manager (`trade_manager.py`, `execute_sniper_buy`
builds it; later passes mutate it in place).  Fields that the code reads with
`dict.get` or guards with membership tests are `Option`-valued. -/
structure Position where
  token_address : Option String := none
  token_symbol : String := ""
  entry_time : Option ℚ := none
  entry_price : Option ℚ := none
  sol_amount : Option ℚ := none
  usd_amount : Option ℚ := none
  expected_tokens : Option ℚ := none
  actual_tokens : Option ℚ := none
  remaining_tokens : Option ℚ := none
  total_sold_ratio : Option ℚ := none
  tx_id : Option String := none
  status : String := "pending"
  confirmation_attempts : ℕ := 0
  initial_liquidity : Option ℚ := none
  initial_volume_24h : Option ℚ := none
  liquidity_drop_threshold : Option ℚ := none
  volume_drop_threshold : Option ℚ := none
  highest_price : Option ℚ := none
  exit_strategy : Option String := none
  failure_reason : Option String := none
  exit_reason : Option String := none
  sell_tx_id : Option String := none
  sell_error : Option String := none
  sell_attempts : ℕ := 0
  deriving DecidableEq

/-- An exit decision triple `(should_exit, reason, partial exit fraction)`. -/
abbrev Decision := Bool × String × ℚ

/-- `config.py`: `TARGET_PROFIT = 0.5`. -/
def TARGET_PROFIT : ℚ := 1/2

/-- `config.py`: `STOP_LOSS = 0.1`. -/
def STOP_LOSS : ℚ := 1/10

/-- Constructor parameters of `TrailingStopStrategy`. -/
structure TrailingCfg where
  initial_stop_loss : ℚ := 1/10
  trailing_distance : ℚ := 1/20
  activation_profit : ℚ := 1/10
  deriving DecidableEq

/-- `liquidity_factor = min(1.0, initial_liquidity / 50000)` with
`position.get('initial_liquidity', 50000)` (`exit_strategies.py` line 67). -/
def liquidityFactor (p : Position) : ℚ := min 1 ((p.initial_liquidity.getD 50000) / 50000)

/-- `adaptive_stop_loss = initial_stop_loss * (0.5 + 0.5 * liquidity_factor)`. -/
def adaptiveStopLoss (s : TrailingCfg) (p : Position) : ℚ :=
  s.initial_stop_loss * (1/2 + 1/2 * liquidityFactor p)

/-- `adaptive_trailing = trailing_distance * (0.7 + 0.3 * liquidity_factor)`. -/
def adaptiveTrailing (s : TrailingCfg) (p : Position) : ℚ :=
  s.trailing_distance * (7/10 + 3/10 * liquidityFactor p)

/-- `adaptive_activation = activation_profit * (0.8 + 0.2 * liquidity_factor)`. -/
def adaptiveActivation (s : TrailingCfg) (p : Position) : ℚ :=
  s.activation_profit * (4/5 + 1/5 * liquidityFactor p)

/-- The highest-price tracking update (`exit_strategies.py` lines 76-79):
missing field becomes `max entry current`, otherwise `max old current`. -/
def trailNewHigh (p : Position) (e c : ℚ) : ℚ :=
  match p.highest_price with
  | none => max e c
  | some h => max h c

/-- `TrailingStopStrategy.should_exit` (`exit_strategies.py` lines 59-93).
Returns the decision together with the (possibly mutated) position. -/
def trailingShouldExit (s : TrailingCfg) (p : Position) (c : ℚ) : Decision × Position :=
  if pyTruthyQ p.entry_price = false ∨ c ≤ 0 then ((false, "hold", 0), p)
  else
    let e := p.entry_price.getD 0
    let pnl := (c - e) / e
    let p' := { p with highest_price := some (trailNewHigh p e c) }
    if pnl ≤ -(adaptiveStopLoss s p) then ((true, "adaptive_stop_loss", 1), p')
    else if adaptiveActivation s p ≤ pnl ∧ c ≤ trailNewHigh p e c * (1 - adaptiveTrailing s p) then
      ((true, "adaptive_trailing_stop", 1), p')
    else ((false, "hold", 0), p')

/-- Reason string `scaled_exit_<threshold*100>%` built by `ScaledExitStrategy`. -/
def scaledReason (thr : ℚ) : String :=
  "scaled_exit_" ++ toString (round (thr * 100)) ++ "%"

/-- Default exit tiers of `ScaledExitStrategy` (`exit_strategies.py` lines 101-105). -/
def scaledLevels : List (ℚ × ℚ) := [(1/5, 1/4), (1/2, 1/2), (1, 1)]

/-- The tier scan of `ScaledExitStrategy.should_exit` (lines 119-123): the first
tier whose profit threshold is crossed and whose cumulative target exceeds the
sold fraction by more than 1% wins. -/
def scaledScan (sold pnl : ℚ) : List (ℚ × ℚ) → Option (String × ℚ)
  | [] => none
  | (thr, target) :: rest =>
    if thr ≤ pnl then
      if 1/100 < target - sold then some (scaledReason thr, target - sold)
      else scaledScan sold pnl rest
    else scaledScan sold pnl rest

/-- The decision part of `ScaledExitStrategy.should_exit` (lines 118-129) as a
function of the already-sold fraction and the pnl: tier scan first, then the
hard stop-loss selling the remaining fraction, else hold. -/
def scaledDecision (sold pnl : ℚ) : Decision :=
  match scaledScan sold pnl scaledLevels with
  | some (reason, frac) => (true, reason, frac)
  | none =>
    if pnl ≤ -STOP_LOSS then (true, "stop_loss", 1 - sold)
    else (false, "hold", 0)

/-- `ScaledExitStrategy.should_exit` (`exit_strategies.py` lines 107-129), with the
default tier list.  Initialises `total_sold_ratio` on the position when absent;
the decision reads the sold fraction after that initialisation. -/
def scaledShouldExit (p : Position) (c : ℚ) : Decision × Position :=
  if pyTruthyQ p.entry_price = false ∨ c ≤ 0 then ((false, "hold", 0), p)
  else
    let e := p.entry_price.getD 0
    let pnl := (c - e) / e
    let p' := if p.total_sold_ratio = none then { p with total_sold_ratio := some 0 } else p
    (scaledDecision (p'.total_sold_ratio.getD 0) pnl, p')

/-- Constructor parameters of `TimeBasedExitStrategy`. -/
structure TimeCfg where
  max_hold_minutes : ℚ := 30
  profit_tightening : Bool := true
  deriving DecidableEq

/-- `TimeBasedExitStrategy.should_exit` (`exit_strategies.py` lines 139-172).
`now` is the wall clock (seconds); entry_time is a timestamp in seconds and
`time_held_minutes` is their difference over 60.  The position is not mutated. -/
def timeBasedShouldExit (s : TimeCfg) (now : ℚ) (p : Position) (c : ℚ) : Decision × Position :=
  if pyTruthyQ p.entry_price = false ∨ p.entry_time = none ∨ c ≤ 0 then ((false, "hold", 0), p)
  else
    let e := p.entry_price.getD 0
    let pnl := (c - e) / e
    let th := (now - p.entry_time.getD 0) / 60
    if TARGET_PROFIT ≤ pnl then ((true, "take_profit", 1), p)
    else
      let tight : Option Decision :=
        if s.profit_tightening ∧ 5 < th then
          if 0 < pnl then
            if 5 < th ∧ pnl ≤ -(1/20) then some (true, "tightened_stop", 1)
            else if 15 < th ∧ pnl ≤ -(1/50) then some (true, "very_tight_stop", 1)
            else none
          else none
        else none
      match tight with
      | some d => (d, p)
      | none =>
        if pnl ≤ -STOP_LOSS then ((true, "stop_loss", 1), p)
        else if s.max_hold_minutes < th then ((true, "time_limit", 1), p)
        else ((false, "hold", 0), p)

/-- `AdaptiveExitStrategy.should_exit`: trailing stop (stop 0.1, trail 0.03,
activation 0.15) first, then time-based (max hold 25). -/
def adaptiveShouldExit (now : ℚ) (p : Position) (c : ℚ) : Decision × Position :=
  let r := trailingShouldExit ⟨1/10, 3/100, 3/20⟩ p c
  if r.1.1 then r else timeBasedShouldExit ⟨25, true⟩ now r.2 c

/-- `ExitStrategyManager.get_exit_decision`: dispatch on the position's optional
strategy name, defaulting (and falling back for unknown names) to the adaptive
composite.  The manager instances use the constructor defaults. -/
def getExitDecision (now : ℚ) (p : Position) (c : ℚ) : Decision × Position :=
  let name := p.exit_strategy.getD "adaptive"
  if name = "trailing" then trailingShouldExit ⟨1/10, 1/20, 1/10⟩ p c
  else if name = "scaled" then scaledShouldExit p c
  else if name = "time_based" then timeBasedShouldExit ⟨30, true⟩ now p c
  else adaptiveShouldExit now p c

/-- Fold a price sequence through the trailing-stop strategy, keeping the
position state (used for the highest-price monotonicity property). -/
def runTrail (s : TrailingCfg) (p : Position) (cs : List ℚ) : Position :=
  cs.foldl (fun q c => (trailingShouldExit s q c).2) p

/-- Exception classes caught by `APIClient.resilient_request` (`api_client.py`):
timeout, connection error, HTTP error with optional status code, anything else. -/
inductive PyErr where
  | timeoutErr : PyErr
  | connErr : PyErr
  | httpErr : Option ℕ → PyErr
  | otherErr : String → PyErr
  deriving DecidableEq

/-- An HTTP client error (4xx) is not retried (`api_client.py` lines 98-104). -/
def isClientErr : PyErr → Bool
  | PyErr.httpErr (some s) => decide (400 ≤ s ∧ s < 500)
  | _ => false

/-- The request cache: key, store timestamp and stored (non-None) datum. -/
abbrev CacheMap (V : Type) := List (String × ℚ × V)

/-- Store a successful non-None result under the cache key (`api_client.py`
lines 67-71); dict assignment is modelled by prepending, lookup finds the
newest entry first. -/
def cacheStore {V : Type} (key : Option String) (now : ℚ) (v : Option V)
    (cache : CacheMap V) : CacheMap V :=
  match key, v with
  | some k, some x => (k, now, x) :: cache
  | _, _ => cache

/-- The retry loop of `resilient_request` (`api_client.py` lines 62-126) over the
list of outcomes of the successive attempts (one list element per loop
iteration, the list having `max_retries` elements).  `none` means the loop
ended without returning (exhausted, or broken out of on a 4xx). -/
def rrLoop {V : Type} (key : Option String) (now : ℚ) :
    List (Except PyErr (Option V)) → CacheMap V → Option (Option V × CacheMap V)
  | [], _ => none
  | a :: rest, cache =>
    match a with
    | Except.ok v => some (v, cacheStore key now v cache)
    | Except.error e =>
      if isClientErr e then none
      else if rest.isEmpty then none
      else rrLoop key now rest cache

/-- `APIClient.resilient_request` (`api_client.py` lines 49-143).  `ttl` is
`cache_ttl` (default 5 s), `now` the wall clock, `attempts` the outcome each
underlying call would produce.  The source catches every `Exception` subclass;
accordingly no branch of the embedding produces `Except.error` — the error side
exists to witness that no exception escapes to the caller. -/
def resilientRequest {V : Type} (ttl now : ℚ) (key : Option String)
    (cache : CacheMap V) (attempts : List (Except PyErr (Option V))) :
    Except String (Option V × CacheMap V) :=
  let hit : Option V :=
    match key with
    | some k =>
      match cache.lookup k with
      | some (ts, v) => if now - ts < ttl then some v else none
      | none => none
    | none => none
  match hit with
  | some v => Except.ok (some v, cache)
  | none =>
    match rrLoop key now attempts cache with
    | some out => Except.ok out
    | none =>
      match key with
      | some k =>
        match cache.lookup k with
        | some (_, v) => Except.ok (some v, cache)
        | none => Except.ok (none, cache)
      | none => Except.ok (none, cache)

/-- `CircuitBreaker` state (`trade_manager.py` lines 41-58).  Failure logs keep
only the timestamps; the recorded detail strings feed logging only. -/
structure CircuitBreaker where
  failure_threshold : ℕ
  time_window : ℚ
  pause_duration : ℚ
  buy_failures : List ℚ := []
  sell_failures : List ℚ := []
  api_failures : List ℚ := []
  rpc_failures : List ℚ := []
  is_paused : Bool := false
  pause_start_time : Option ℚ := none
  pause_reason : Option String := none
  deriving DecidableEq

/-- Failure categories of the circuit breaker. -/
inductive FailCat where
  | buy : FailCat
  | sell : FailCat
  | api : FailCat
  | rpc : FailCat
  deriving DecidableEq

/-- The failure log of one category. -/
def CircuitBreaker.logOf (cb : CircuitBreaker) : FailCat → List ℚ
  | FailCat.buy => cb.buy_failures
  | FailCat.sell => cb.sell_failures
  | FailCat.api => cb.api_failures
  | FailCat.rpc => cb.rpc_failures

/-- Reason string `<category>_failures` used by `_trigger_pause`. -/
def FailCat.reason : FailCat → String
  | FailCat.buy => "buy_failures"
  | FailCat.sell => "sell_failures"
  | FailCat.api => "api_failures"
  | FailCat.rpc => "rpc_failures"

/-- `CircuitBreaker._check_circuit_breaker` + `_trigger_pause`
(`trade_manager.py` lines 95-120): count the category's failures newer than
`now - time_window`; at or above the threshold, trip the pause unless already
paused. -/
def checkCircuitBreaker (cb : CircuitBreaker) (cat : FailCat) (now : ℚ) : CircuitBreaker :=
  let recent := (cb.logOf cat).filter (fun ts => decide (now - cb.time_window < ts))
  if cb.failure_threshold ≤ recent.length then
    if cb.is_paused then cb
    else { cb with is_paused := true, pause_start_time := some now,
                   pause_reason := some cat.reason }
  else cb

/-- `CircuitBreaker.record_*_failure` (`trade_manager.py` lines 60-93): append a
timestamped entry to the category's log, then run the trip check. -/
def recordFailure (cb : CircuitBreaker) (cat : FailCat) (now : ℚ) : CircuitBreaker :=
  let cb' :=
    match cat with
    | FailCat.buy => { cb with buy_failures := cb.buy_failures ++ [now] }
    | FailCat.sell => { cb with sell_failures := cb.sell_failures ++ [now] }
    | FailCat.api => { cb with api_failures := cb.api_failures ++ [now] }
    | FailCat.rpc => { cb with rpc_failures := cb.rpc_failures ++ [now] }
  checkCircuitBreaker cb' cat now

/-- `CircuitBreaker.check_if_paused` (`trade_manager.py` lines 146-169).  The
mutated breaker is always returned (Python mutates the object in place even
when the call then raises).  On the resume branch the source first sets
`pause_start_time = None` (line 153) and then evaluates
`time.time() - self.pause_start_time` while building the resume log record
(line 157), which raises a `TypeError` (float minus None); that branch
therefore produces `Except.error` instead of the boolean `False`. -/
def checkIfPaused (cb : CircuitBreaker) (now : ℚ) : CircuitBreaker × Except String Bool :=
  if cb.is_paused = false then (cb, Except.ok false)
  else
    match cb.pause_start_time with
    | none => (cb, Except.error "TypeError")
    | some t0 =>
      if cb.pause_duration < now - t0 then
        ({ cb with is_paused := false, pause_start_time := none }, Except.error "TypeError")
      else (cb, Except.ok true)

/-- Modelled from the spec: the trade manager imports `MAX_RETRIES`,
`DUST_REDUCTION_FACTOR`, `CHUNK_SIZE_RATIO`, `MIN_CHUNK_SIZE` and
`LIQUIDITY_DEPTH_MULTIPLIER` from the configuration module, but
`src/config.py` does not define them; the spec (section 9) describes these
numeric constants as tunable configuration (retry bound default 5, dust factor
about 0.995).  They are therefore carried as explicit parameters. -/
structure Config where
  max_retries : ℕ := 5
  dust_reduction_factor : ℚ := 199/200
  chunk_size_fraction : ℚ := 1/4
  min_chunk_size : ℤ := 1000
  liquidity_depth_multiplier : ℚ := 1
  deriving DecidableEq

/-- Outcome of one iteration of the sell retry loop, as decided by the external
collaborators (quote service, wallet): the quote fetch fails, the quote fails
validation, the transaction step fails, the send succeeds, or an exception is
raised inside the attempt. -/
inductive SellAttempt where
  | quoteFail : SellAttempt
  | invalid : String → SellAttempt
  | txFail : String → SellAttempt
  | success : String → SellAttempt
  | exc : String → SellAttempt
  deriving DecidableEq

/-- The body of `_execute_sell_with_retry` (`trade_manager.py` lines 645-680):
`i` is the loop index, `fuel` the remaining iterations of `range(max_retries)`.
The `continue` guards compare `i` against the global `MAX_RETRIES` (`maxR`)
while the loop bound is the `max_retries` parameter — faithfully kept apart. -/
def sellGo (maxR : ℕ) (attempts : ℕ → SellAttempt) : ℕ → ℕ → Option String × Option String
  | _, 0 => (none, some "All retries exhausted")
  | i, fuel + 1 =>
    match attempts i with
    | SellAttempt.success txid => (some txid, none)
    | SellAttempt.quoteFail =>
      if i < maxR - 1 then sellGo maxR attempts (i + 1) fuel
      else (none, some "Failed to get quote after retries")
    | SellAttempt.invalid m =>
      if i < maxR - 1 then sellGo maxR attempts (i + 1) fuel
      else (none, some ("Quote validation failed: " ++ m))
    | SellAttempt.txFail m =>
      if i < maxR - 1 then sellGo maxR attempts (i + 1) fuel
      else (none, some ("Transaction failed: " ++ m))
    | SellAttempt.exc m =>
      if i < maxR - 1 then sellGo maxR attempts (i + 1) fuel
      else (none, some ("Sell execution failed: " ++ m))

/-- `TradeManager._execute_sell_with_retry` (`trade_manager.py` lines 639-680):
returns `(tx_id, error_msg)`.  `maxRetriesParam` is the `max_retries`
parameter (loop bound), `maxR` the global `MAX_RETRIES` read by the guards. -/
def sellWithRetry (maxRetriesParam maxR : ℕ) (attempts : ℕ → SellAttempt) :
    Option String × Option String :=
  sellGo maxR attempts 0 maxRetriesParam

/-- The active-position map and trade-history list of `TradeManager`. -/
structure TMState where
  active : List (String × Position) := []
  history : List (Position × String) := []
  deriving DecidableEq

/-- Replace the value stored under a key of the active map (in-place dict
mutation of a looked-up position). -/
def mapUpdate (m : List (String × Position)) (k : String) (v : Position) :
    List (String × Position) :=
  m.map (fun e => if e.1 = k then (k, v) else e)

/-- Remove a key from the active map (`del self.active_positions[...]`). -/
def mapErase (m : List (String × Position)) (k : String) : List (String × Position) :=
  m.filter (fun e => decide (e.1 ≠ k))

/-- `TradeManager._should_chunk_sell` (`trade_manager.py` lines 1019-1034). -/
def shouldChunkSell (cfg : Config) (token_balance : ℤ) (p : Position) : Bool × ℤ :=
  let L := p.initial_liquidity.getD 50000
  let usd := p.usd_amount.getD 10
  if L * cfg.liquidity_depth_multiplier * 2 < usd then (true, max (token_balance / 4) 1)
  else if 1000000 < token_balance then (true, max (token_balance / 3) 1)
  else (false, 0)

/-- One iteration's external observations inside the chunked-sell loop:
the wallet token balance read at the top, the retry-loop outcomes of this
chunk, and the wallet SOL balance read after it. -/
structure ChunkRound where
  balance : ℚ
  attempts : ℕ → SellAttempt
  sol_after : ℚ := 0

/-- The `while True` loop of `_execute_chunked_sell` (`trade_manager.py`
lines 1053-1104), driven by the finite trace of external observations (one
`ChunkRound` consumed per iteration; an exhausted trace ends the loop).
Only the completed-chunk count is observable by the rest of the manager — the
accumulated SOL feeds the unmodelled P&L log record. -/
def chunkLoop (cfg : Config) : List ChunkRound → ℤ → ℕ → ℕ
  | [], _, chunks_completed => chunks_completed
  | r :: rest, chunk_size, chunks_completed =>
    if r.balance ≤ 0 then chunks_completed
    else
      let dust := cfg.dust_reduction_factor - chunks_completed * (1/500)
      let adjusted := pyTrunc (r.balance * dust)
      let current_chunk := min chunk_size adjusted
      if current_chunk ≤ 0 then chunks_completed
      else
        match sellWithRetry 1 cfg.max_retries r.attempts with
        | (some _, _) => chunkLoop cfg rest chunk_size (chunks_completed + 1)
        | (none, msg) =>
          if strContains (msg.getD "") "High price impact" ∧ cfg.min_chunk_size < chunk_size then
            chunkLoop cfg rest (max (chunk_size / 2) cfg.min_chunk_size) chunks_completed
          else chunks_completed

/-- External observations consumed by a full sell. -/
structure SellEnv where
  paused : Bool := false
  full_token_balance : ℚ := 0
  attempts : ℕ → SellAttempt := fun _ => SellAttempt.quoteFail
  chunkRounds : List ChunkRound := []

/-- `TradeManager._execute_chunked_sell` (`trade_manager.py` lines 1036-1123):
run the chunk loop, then always finalize the position as closed via
`_finalize_sell_position` (reason suffixed `_chunked`, history action
`chunked_sell`, removal from the active map).  The numeric P&L record it
stores is log-only and not modelled. -/
def executeChunkedSell (cfg : Config) (env : SellEnv) (st : TMState)
    (addr reason : String) (chunk_size : ℤ) : TMState × Except String Position :=
  match st.active.lookup addr with
  | none => (st, Except.error "No active position found")
  | some p =>
    let _ := chunkLoop cfg env.chunkRounds chunk_size 0
    let p' := { p with status := "closed", exit_reason := some (reason ++ "_chunked"),
                       sell_tx_id := none, sell_attempts := 1 }
    ({ active := mapErase st.active addr, history := st.history ++ [(p', "chunked_sell")] },
     Except.ok p')

/-- `TradeManager.execute_sniper_sell` (`trade_manager.py` lines 858-925).
On a submitted transaction the position is finalized `closed` (history action
`sell`); on retry exhaustion with a high-price-impact message it falls back to
a chunked sell; on any other terminal failure the position is marked `failed`,
appended to history as `failed_sell` and deleted from the active map. -/
def executeSniperSell (cfg : Config) (env : SellEnv) (st : TMState)
    (addr reason : String) : TMState × Except String Position :=
  match st.active.lookup addr with
  | none => (st, Except.error "No active position found")
  | some p =>
    if env.paused then (st, Except.error "Trading paused due to circuit breaker")
    else if env.full_token_balance ≤ 0 then (st, Except.error "No tokens to sell")
    else
      let token_balance := pyTrunc (env.full_token_balance * cfg.dust_reduction_factor)
      if token_balance ≤ 0 then (st, Except.error "Token balance too small after dust reduction")
      else
        let chunkDec := shouldChunkSell cfg token_balance p
        if chunkDec.1 then executeChunkedSell cfg env st addr reason chunkDec.2
        else
          match sellWithRetry cfg.max_retries cfg.max_retries env.attempts with
          | (some txid, _) =>
            let p' := { p with status := "closed", exit_reason := some reason,
                               sell_tx_id := some txid, sell_attempts := 1 }
            ({ active := mapErase st.active addr, history := st.history ++ [(p', "sell")] },
             Except.ok p')
          | (none, errMsg) =>
            if strContains (errMsg.getD "") "High price impact" then
              executeChunkedSell cfg env st addr reason
                (pyTrunc ((token_balance : ℚ) * cfg.chunk_size_fraction))
            else
              let p' := { p with status := "failed",
                                 exit_reason := some (reason ++ "_failed"),
                                 sell_error := errMsg, sell_attempts := cfg.max_retries }
              ({ active := mapErase st.active addr,
                 history := st.history ++ [(p', "failed_sell")] },
               Except.error ("Sell execution failed: " ++ errMsg.getD ""))

/-- External observations consumed by a partial sell. -/
structure PartialEnv where
  paused : Bool := false
  attempts : ℕ → SellAttempt := fun _ => SellAttempt.quoteFail
  actual_balance : ℚ := 0

/-- `TradeManager.execute_partial_sell` (`trade_manager.py` lines 931-1017).
In-place dict mutations persist even on the error returns, so the updated
position is written back to the active map on every path after the
`remaining_tokens` initialisation.  The trade-history entry is the
`position.copy()` with the sell transaction id. -/
def executePartialSell (cfg : Config) (env : PartialEnv) (st : TMState)
    (addr reason : String) (exitFrac : ℚ) : TMState × Except String Position :=
  match st.active.lookup addr with
  | none => (st, Except.error "No active position found")
  | some p =>
    if env.paused then (st, Except.error "Trading paused due to circuit breaker")
    else
      let p1 :=
        if p.remaining_tokens = none then
          { p with remaining_tokens := some (p.actual_tokens.getD (p.expected_tokens.getD 0)) }
        else p
      let remaining := p1.remaining_tokens.getD 0
      if remaining ≤ 0 then
        ({ st with active := mapUpdate st.active addr p1 },
         Except.error "No remaining tokens to sell")
      else
        let adjusted := pyTrunc (remaining * cfg.dust_reduction_factor)
        let sell_amount := pyTrunc ((adjusted : ℚ) * exitFrac)
        if sell_amount ≤ 0 then
          ({ st with active := mapUpdate st.active addr p1 },
           Except.error "Partial sell amount too small after dust reduction")
        else
          match sellWithRetry cfg.max_retries cfg.max_retries env.attempts with
          | (none, msg) =>
            ({ st with active := mapUpdate st.active addr p1 },
             Except.error ("Partial sell execution failed: " ++ msg.getD ""))
          | (some txid, _) =>
            let sold := (if p1.total_sold_ratio = none then some (0 : ℚ)
                         else p1.total_sold_ratio).getD 0
            let sold' := sold + exitFrac
            let rem1 := max 0 (remaining - sell_amount)
            let rem2 := if env.actual_balance < rem1 then env.actual_balance else rem1
            let status' := if 99/100 ≤ sold' ∨ rem2 < 100 then "closing" else p1.status
            let p2 := { p1 with total_sold_ratio := some sold',
                                remaining_tokens := some rem2, status := status' }
            let hEntry := { p2 with sell_tx_id := some txid }
            ({ active := mapUpdate st.active addr p2,
               history := st.history ++ [(hEntry, "partial_sell")] },
             Except.ok hEntry)

/-- External observations consumed by the confirmation pass. -/
structure ConfirmEnv where
  txStatus : String → String
  tokenBalance : String → ℚ

/-- Classification of a position by the confirmation pass: left untouched or
updated in place, confirmed, or failed (including timeout) and removed. -/
inductive CClass where
  | keep : CClass
  | conf : CClass
  | fail : CClass
  deriving DecidableEq

/-- Per-position body of `TradeManager.confirm_pending_transactions`
(`trade_manager.py` lines 552-598). -/
def confirmStep (env : ConfirmEnv) (addr : String) (p : Position) : Position × CClass :=
  if p.status ≠ "pending" then (p, CClass.keep)
  else if pyTruthyS p.tx_id = false then (p, CClass.keep)
  else
    let txid := p.tx_id.getD ""
    let p1 := { p with confirmation_attempts := p.confirmation_attempts + 1 }
    if env.txStatus txid = "confirmed" then
      let bal := env.tokenBalance addr
      if 0 < bal then
        ({ p1 with status := "open", actual_tokens := some bal,
                   remaining_tokens := some bal }, CClass.conf)
      else
        ({ p1 with status := "failed", failure_reason := some "no_tokens_received" },
         CClass.fail)
    else if env.txStatus txid = "failed" then
      ({ p1 with status := "failed", failure_reason := some "transaction_failed" }, CClass.fail)
    else if 10 < p1.confirmation_attempts then
      ({ p1 with status := "timeout", failure_reason := some "confirmation_timeout" },
       CClass.fail)
    else (p1, CClass.keep)

/-- The updated active map after a confirmation pass: every position mutated in
place, the failed ones removed. -/
def confirmActive (env : ConfirmEnv) (m : List (String × Position)) :
    List (String × Position) :=
  ((m.map (fun e => (e.1, confirmStep env e.1 e.2))).filter
    (fun e => decide (e.2.2 ≠ CClass.fail))).map (fun e => (e.1, e.2.1))

/-- The `failed_buy` history entries appended by a confirmation pass. -/
def confirmFailedHist (env : ConfirmEnv) (m : List (String × Position)) :
    List (Position × String) :=
  ((m.map (fun e => (e.1, confirmStep env e.1 e.2))).filter
    (fun e => decide (e.2.2 = CClass.fail))).map (fun e => (e.2.1, "failed_buy"))

/-- `TradeManager.confirm_pending_transactions` (`trade_manager.py` lines
547-608): update every position in place, then remove the failed ones from the
active map and append them to the trade history with action `failed_buy`. -/
def confirmAll (env : ConfirmEnv) (st : TMState) : TMState :=
  { active := confirmActive env st.active,
    history := st.history ++ confirmFailedHist env st.active }

/-- External observations consumed by one monitoring decision: the resilient
price, liquidity and 24h-volume fetch results and the wall clock. -/
structure MonitorEnv where
  price : Option ℚ := none
  liquidity : Option ℚ := none
  volume : Option ℚ := none
  now : ℚ := 0

/-- `TradeManager.should_sell_position` (`trade_manager.py` lines 442-545):
missing-data guard, liquidity rug check, exit-strategy dispatch, then the
low-activity momentum check.  Returns the decision and the position as
possibly mutated by the strategy. -/
def shouldSellPosition (env : MonitorEnv) (p : Position) : Decision × Position :=
  if (pyTruthyQ p.entry_price && (decide (p.entry_time ≠ none)) &&
      pyTruthyS p.token_address) = false then
    ((true, "missing_data", 1), p)
  else
    match env.price with
    | none => ((false, "price_data_unavailable", 0), p)
    | some c =>
      if c = 0 then ((false, "price_data_unavailable", 0), p)
      else
        let liq :=
          match env.liquidity with
          | none => p.initial_liquidity.getD 50000 * (1/2)
          | some l => l
        if liq < p.liquidity_drop_threshold.getD 5000 then ((true, "liquidity_drop", 1), p)
        else
          let r := getExitDecision env.now p c
          if r.1.1 then r
          else
            let e := p.entry_price.getD 0
            let pnl := (c - e) / e
            let th := (env.now - p.entry_time.getD 0) / 60
            let momentum := min (1/20) (|pnl| * (1/2))
            if pnl < -momentum ∧ 5 < th then
              let vol :=
                match env.volume with
                | none => p.initial_volume_24h.getD 20000
                | some v => v
              if vol < p.volume_drop_threshold.getD 10000 then
                ((true, "low_activity", 1), r.2)
              else ((false, "hold", 0), r.2)
            else ((false, "hold", 0), r.2)

/-! ### Helper lemmas about the strategy embeddings -/

/-- The position returned by the trailing-stop strategy: unchanged when the
guard rejects, otherwise only the tracked highest price is replaced. -/
theorem trailing_snd (s : TrailingCfg) (p : Position) (c : ℚ) :
    (trailingShouldExit s p c).2 =
      if pyTruthyQ p.entry_price = false ∨ c ≤ 0 then p
      else { p with highest_price := some (trailNewHigh p (p.entry_price.getD 0) c) } := by
  unfold trailingShouldExit
  split
  · rfl
  · dsimp only
    split
    · rfl
    · split <;> rfl

/-- One trailing-stop observation never lowers a tracked highest price. -/
theorem trail_high_step (s : TrailingCfg) (q : Position) (c h : ℚ)
    (hh : q.highest_price = some h) :
    ∃ h', ((trailingShouldExit s q c).2).highest_price = some h' ∧ h ≤ h' := by
  rw [trailing_snd]
  split
  · exact ⟨h, hh, le_refl h⟩
  · refine ⟨max h c, ?_, le_max_left h c⟩
    simp [trailNewHigh, hh]

/-- Folding further prices through the trailing-stop strategy never lowers a
tracked highest price. -/
theorem trail_high_run (s : TrailingCfg) (cs : List ℚ) :
    ∀ (q : Position) (h : ℚ), q.highest_price = some h →
      ∃ h', (runTrail s q cs).highest_price = some h' ∧ h ≤ h' := by
  induction cs with
  | nil => exact fun q h hh => ⟨h, hh, le_refl h⟩
  | cons c rest ih =>
    intro q h hh
    obtain ⟨h1, hh1, hle1⟩ := trail_high_step s q c h hh
    obtain ⟨h2, hh2, hle2⟩ := ih _ h1 hh1
    exact ⟨h2, hh2, le_trans hle1 hle2⟩

/-! ### C4 — purity of the exit strategies -/

/-- Concrete position for the C4 counterexample: no tracked highest price yet. -/
def c4pos : Position := { entry_price := some 1, initial_liquidity := some 50000 }

/-- C4 counterexample: `TrailingStopStrategy.should_exit` mutates the position
it is given — after one call on a position without a tracked highest price the
position differs from the input (`highest_price` has been written), so the
strategies are not modification-free pure functions. -/
theorem C4_counterexample : (trailingShouldExit {} c4pos 2).2 ≠ c4pos := by
  rw [trailing_snd, if_neg (by decide)]
  intro h
  exact Option.noConfusion (congrArg Position.highest_price h)

/-- C4 (amended): each strategy's decision is a deterministic function of the
position snapshot, the current price and (for the time-based strategy) the
clock, and `should_exit` modifies the position in at most one tracking field:
Trailing Stop may rewrite `highest_price`, Scaled Exit may initialise
`total_sold_ratio`, and Time-Based modifies nothing. -/
theorem C4_strategy_frame (s : TrailingCfg) (tc : TimeCfg) (now : ℚ)
    (p : Position) (c : ℚ) :
    (trailingShouldExit s p c).2 =
        { p with highest_price := (trailingShouldExit s p c).2.highest_price }
  ∧ (scaledShouldExit p c).2 =
        { p with total_sold_ratio := (scaledShouldExit p c).2.total_sold_ratio }
  ∧ (timeBasedShouldExit tc now p c).2 = p := by
  refine ⟨?_, ?_, ?_⟩
  · rw [trailing_snd]
    split <;> rfl
  · unfold scaledShouldExit
    split
    · rfl
    · dsimp only
      split <;> (try split) <;> (try split) <;> rfl
  · unfold timeBasedShouldExit
    split
    · rfl
    · dsimp only
      split
      · rfl
      · split <;> (try split) <;> (try split) <;> rfl

/-! ### C5 — the time-based tightened stops -/

/-- Position entered at time 0 with entry price 1, used for the C5 evaluation. -/
def c5pos : Position := { entry_price := some 1, entry_time := some 0 }

/-- C5: the claimed tiered stop-loss tightening is dead code.  At the failing
input — default `TimeBasedExitStrategy`, position held 6 minutes, pnl −6% —
the claim (and the code's own comments, lines 153-161) require a full-exit
`tightened_stop` signal, but the tightening block is guarded by
`pnl_percent > 0`, which contradicts the inner `pnl_percent <= -0.05` test, so
the code returns hold.  The second and third conjuncts record that the failing
input does satisfy the claim's trigger (pnl ≤ −5%, held > 5 min). -/
theorem C5_dead_tightening_eval :
    timeBasedShouldExit {} 360 c5pos (47/50) = ((false, "hold", 0), c5pos)
  ∧ ((47/50 : ℚ) - 1) / 1 ≤ -(1/20)
  ∧ (5 : ℚ) < (360 - 0) / 60 := by
  refine ⟨?_, by norm_num, by norm_num⟩
  unfold timeBasedShouldExit
  rw [if_neg (by push_neg; exact ⟨by decide, by decide, by norm_num⟩)]
  norm_num [c5pos, TARGET_PROFIT, STOP_LOSS]

/-! ### C6 — trailing-stop adaptive thresholds and highest-price monotonicity -/

/-- C6: for a position with positive entry price `e` and initial liquidity `L`,
and a positive current price, the trailing-stop decision follows the adaptive
formulas (liquidity factor `min 1 (L/50000)`, stop `base*(0.5+0.5*lf)`,
trailing `base*(0.7+0.3*lf)`, activation `base*(0.8+0.2*lf)`): stop-loss exit,
else trailing-stop exit once activated and below the trail of the maintained
highest price, else hold; and over any sequence of price observations the
tracked highest price is monotonically non-decreasing. -/
theorem C6_trailing_adaptive (s : TrailingCfg) (p : Position) (c e L : ℚ)
    (he : p.entry_price = some e) (he0 : 0 < e) (hc : 0 < c)
    (hL : p.initial_liquidity = some L) :
    ((trailingShouldExit s p c).1 =
      if (c - e) / e ≤ -(s.initial_stop_loss * (1/2 + 1/2 * min 1 (L / 50000))) then
        (true, "adaptive_stop_loss", 1)
      else if s.activation_profit * (4/5 + 1/5 * min 1 (L / 50000)) ≤ (c - e) / e ∧
          c ≤ trailNewHigh p e c * (1 - s.trailing_distance * (7/10 + 3/10 * min 1 (L / 50000))) then
        (true, "adaptive_trailing_stop", 1)
      else (false, "hold", 0))
  ∧ (trailingShouldExit s p c).2.highest_price = some (trailNewHigh p e c)
  ∧ ∀ (cs₁ cs₂ : List ℚ) (h : ℚ), (runTrail s p cs₁).highest_price = some h →
      ∃ h', (runTrail s p (cs₁ ++ cs₂)).highest_price = some h' ∧ h ≤ h' := by
  have hguard : ¬(pyTruthyQ p.entry_price = false ∨ c ≤ 0) := by
    push_neg
    exact ⟨by simp [pyTruthyQ, he]; exact ne_of_gt he0, hc⟩
  refine ⟨?_, ?_, ?_⟩
  · unfold trailingShouldExit
    rw [if_neg hguard]
    simp only [he, Option.getD_some, adaptiveStopLoss, adaptiveTrailing, adaptiveActivation,
      liquidityFactor, hL]
    split_ifs <;> rfl
  · rw [trailing_snd, if_neg hguard]
    simp [he]
  · intro cs₁ cs₂ h hh
    have hsplit : runTrail s p (cs₁ ++ cs₂) = runTrail s (runTrail s p cs₁) cs₂ := by
      unfold runTrail
      rw [List.foldl_append]
    rw [hsplit]
    exact trail_high_run s cs₂ _ h hh

/-- Default-configured trailing strategy and concrete position for the C6 witness. -/
def c6pos : Position := { entry_price := some 1, initial_liquidity := some 50000 }

/-- C6 witness: at entry price 1, liquidity 50000 and current price 2 the
default trailing-stop strategy holds (profit is above activation but the price
sits at the maintained high, not below the trail). -/
theorem C6_witness : (trailingShouldExit {} c6pos 2).1 = (false, "hold", 0) := by
  have h := (C6_trailing_adaptive {} c6pos 2 1 50000 rfl (by norm_num) (by norm_num) rfl).1
  rw [h]
  norm_num [trailNewHigh, c6pos]

/-! ### C8 — scaled exit never oversells -/

/-- A winning tier returns exactly `target - sold`, so the resulting cumulative
fraction is the tier's target. -/
theorem scaledScan_bound (sold pnl : ℚ) (lvls : List (ℚ × ℚ))
    (hl : ∀ pr ∈ lvls, pr.2 ≤ 1) :
    ∀ r frac, scaledScan sold pnl lvls = some (r, frac) → sold + frac ≤ 1 := by
  induction lvls with
  | nil => intro r frac h; exact absurd h (by simp [scaledScan])
  | cons pr rest ih =>
    intro r frac h
    unfold scaledScan at h
    split at h
    · split at h
      · rw [Option.some_inj] at h
        have hfrac : frac = pr.2 - sold := (Prod.ext_iff.mp h).2.symm
        have htop := hl pr (List.mem_cons_self pr rest)
        rw [hfrac]
        linarith
      · exact ih (fun q hq => hl q (List.mem_cons_of_mem pr hq)) r frac h
    · exact ih (fun q hq => hl q (List.mem_cons_of_mem pr hq)) r frac h

/-- C8: whenever the (default) Scaled Exit strategy signals an exit on a
position with a sold fraction in `[0, 1]`, the signalled fraction never pushes
the cumulative sold fraction above 1. -/
theorem C8_scaled_no_oversell (p : Position) (c : ℚ)
    (h0 : 0 ≤ p.total_sold_ratio.getD 0) (h1 : p.total_sold_ratio.getD 0 ≤ 1)
    (hx : ((scaledShouldExit p c).1).1 = true) :
    p.total_sold_ratio.getD 0 + ((scaledShouldExit p c).1).2.2 ≤ 1 := by
  have hsold : (if p.total_sold_ratio = none then { p with total_sold_ratio := some 0 }
      else p).total_sold_ratio.getD 0 = p.total_sold_ratio.getD 0 := by
    split
    · rename_i hn
      simp [hn]
    · rfl
  have hlvls : ∀ pr ∈ scaledLevels, pr.2 ≤ 1 := by
    intro pr hpr
    simp only [scaledLevels, List.mem_cons, List.not_mem_nil, or_false] at hpr
    rcases hpr with h | h | h <;> rw [h] <;> norm_num
  have hdec : ∀ pnl, (scaledDecision (p.total_sold_ratio.getD 0) pnl).1 = true →
      p.total_sold_ratio.getD 0 + (scaledDecision (p.total_sold_ratio.getD 0) pnl).2.2 ≤ 1 := by
    intro pnl hy
    unfold scaledDecision at hy ⊢
    split at hy <;> rename_i hscan
    · rename_i r frac
      exact scaledScan_bound _ _ scaledLevels hlvls r frac hscan
    · split at hy
      · rename_i hstop
        rw [if_pos hstop]
        show p.total_sold_ratio.getD 0 + (1 - p.total_sold_ratio.getD 0) ≤ 1
        linarith
      · exact absurd hy (by simp)
  unfold scaledShouldExit at hx ⊢
  split at hx
  · exact absurd hx (by simp)
  · rename_i hg
    rw [if_neg hg]
    dsimp only at hx ⊢
    rw [hsold] at hx ⊢
    exact hdec _ hx

/-- Concrete position for the C8 witness: nothing sold yet. -/
def c8pos : Position := { entry_price := some 1, total_sold_ratio := some 0 }

/-- C8 witness: at entry 1 and price 5/4 the scaled strategy signals the first
tier and the cumulative sold fraction stays at most 1. -/
theorem C8_witness :
    c8pos.total_sold_ratio.getD 0 + ((scaledShouldExit c8pos (5/4)).1).2.2 ≤ 1 := by
  refine C8_scaled_no_oversell c8pos (5/4) (by decide) (by decide) ?_
  unfold scaledShouldExit
  rw [if_neg (by push_neg; exact ⟨by decide, by norm_num⟩)]
  norm_num [c8pos, scaledDecision, scaledScan, scaledLevels, scaledReason, STOP_LOSS]

/-! ### C7 — the resilient request executor -/

/-- If every attempt raises, the retry loop never returns in-loop. -/
theorem rrLoop_all_fail {V : Type} (key : Option String) (now : ℚ)
    (l : List (Except PyErr (Option V))) (cache : CacheMap V)
    (hf : ∀ a ∈ l, ∃ e, a = Except.error e) :
    rrLoop key now l cache = none := by
  induction l with
  | nil => rfl
  | cons a rest ih =>
    obtain ⟨e, he⟩ := hf a (List.mem_cons_self a rest)
    unfold rrLoop
    rw [he]
    dsimp only
    split
    · rfl
    · split
      · rfl
      · exact ih (fun b hb => hf b (List.mem_cons_of_mem a hb))

/-- C7: the resilient executor always returns a value (no exception of the
underlying work escapes — every branch of the source catches it), and when
every attempt fails but the cache holds an entry for the request's key, the
executor returns that cached value (whatever its age) rather than the
no-data sentinel. -/
theorem C7_resilient_executor {V : Type} (ttl now : ℚ) (key : Option String)
    (cache : CacheMap V) (attempts : List (Except PyErr (Option V))) :
    (∃ out, resilientRequest ttl now key cache attempts = Except.ok out)
  ∧ (∀ (k : String) (ts : ℚ) (v : V), key = some k → cache.lookup k = some (ts, v) →
      (∀ a ∈ attempts, ∃ e, a = Except.error e) →
      resilientRequest ttl now key cache attempts = Except.ok (some v, cache)) := by
  constructor
  · unfold resilientRequest
    dsimp only
    split
    · exact ⟨_, rfl⟩
    · split
      · exact ⟨_, rfl⟩
      · split
        · split
          · exact ⟨_, rfl⟩
          · exact ⟨_, rfl⟩
        · exact ⟨_, rfl⟩
  · intro k ts v hk hc hf
    unfold resilientRequest
    rw [hk]
    dsimp only
    rw [hc]
    dsimp only
    split
    · rename_i w heq
      split at heq
      · rw [Option.some_inj] at heq
        rw [heq]
      · exact Option.noConfusion heq
    · rw [rrLoop_all_fail (some k) now attempts cache hf]

/-- C7 witness: a timeout on every attempt with a year-old cache entry for the
key still yields the cached value. -/
theorem C7_witness :
    resilientRequest (V := ℚ) 5 100 (some "k") [("k", 0, 42)]
      [Except.error PyErr.timeoutErr, Except.error PyErr.timeoutErr] =
      Except.ok (some 42, [("k", 0, 42)]) := by
  refine (C7_resilient_executor 5 100 (some "k") [("k", 0, 42)]
    [Except.error PyErr.timeoutErr, Except.error PyErr.timeoutErr]).2 "k" 0 42 rfl rfl ?_
  intro a ha
  simp only [List.mem_cons, List.not_mem_nil, or_false] at ha
  rcases ha with h | h <;> exact ⟨_, h⟩

/-! ### C2 — circuit breaker trip and resume -/

/-- A breaker with threshold 2, 5-minute window and 10-minute pause. -/
def c2cb : CircuitBreaker :=
  { failure_threshold := 2, time_window := 300, pause_duration := 600 }

/-- The breaker after two sell failures recorded at time 0. -/
def c2tripped : CircuitBreaker := recordFailure (recordFailure c2cb FailCat.sell 0) FailCat.sell 0

/-- C2: recording `failure_threshold` failures of one category inside the window
trips the pause, and checks within `pause_duration` return true; but the first
check after `pause_duration` has elapsed does not return false — it clears the
pause and then raises a `TypeError`, because `check_if_paused` sets
`pause_start_time = None` (line 153) and immediately evaluates
`time.time() - self.pause_start_time` in the resume log call (line 157).
Afterwards the cleared breaker answers false and does not re-trip without new
failures. -/
theorem C2_resume_crash :
    c2tripped.is_paused = true
  ∧ (checkIfPaused c2tripped 100).2 = Except.ok true
  ∧ (checkIfPaused c2tripped 601).2 = Except.error "TypeError"
  ∧ ((checkIfPaused c2tripped 601).1).is_paused = false
  ∧ (checkIfPaused (checkIfPaused c2tripped 601).1 602).2 = Except.ok false := by
  have ht : c2tripped = { c2cb with sell_failures := [0, 0], is_paused := true,
                                    pause_start_time := some 0,
                                    pause_reason := some "sell_failures" } := by
    unfold c2tripped recordFailure checkCircuitBreaker
    norm_num [c2cb, CircuitBreaker.logOf, FailCat.reason]
  refine ⟨by rw [ht], ?_, ?_, ?_, ?_⟩ <;>
    · rw [ht]
      unfold checkIfPaused
      norm_num [c2cb]

/-! ### C10 — the missing-data guard of the monitoring decision -/

/-- C10: when entry price is missing or zero, entry time is missing, or the
token address is missing (or empty), the monitoring decision returns the
forced full exit `(true, "missing_data", 1.0)` immediately, for every
environment — so no price, liquidity or volume fetch and no exit strategy can
influence the result, and the position is untouched. -/
theorem C10_missing_data (env : MonitorEnv) (p : Position)
    (h : pyTruthyQ p.entry_price = false ∨ p.entry_time = none ∨
         pyTruthyS p.token_address = false) :
    shouldSellPosition env p = ((true, "missing_data", 1), p) := by
  unfold shouldSellPosition
  have hb : (pyTruthyQ p.entry_price && decide (p.entry_time ≠ none) &&
      pyTruthyS p.token_address) = false := by
    rcases h with h | h | h <;> simp [h]
  rw [hb, if_pos rfl]

/-- Position with a zero entry price (Python-falsy), used for the C10 witness. -/
def c10pos : Position :=
  { entry_price := some 0, entry_time := some 0, token_address := some "tok" }

/-- C10 witness: a zero entry price forces the missing-data full exit in any
environment (here the empty one). -/
theorem C10_witness : shouldSellPosition {} c10pos = ((true, "missing_data", 1), c10pos) :=
  C10_missing_data {} c10pos (Or.inl (by decide))

/-! ### C9 — confirmed transaction with zero received balance -/

/-- Looking up a key that is not among the keys of an association list fails. -/
theorem lookup_none_of_not_mem_keys (k : String) :
    ∀ (m : List (String × Position)), k ∉ m.map Prod.fst → m.lookup k = none := by
  intro m
  induction m with
  | nil => intro _; rfl
  | cons e rest ih =>
    intro h
    simp only [List.map_cons, List.mem_cons, not_or] at h
    have hb : (k == e.1) = false := beq_eq_false_iff_ne.mpr h.1
    simp only [List.lookup, hb]
    exact ih h.2

/-- Unfolding the confirmation pass over the head of the active map. -/
theorem confirmActive_cons (env : ConfirmEnv) (e : String × Position)
    (rest : List (String × Position)) :
    confirmActive env (e :: rest) =
      if (confirmStep env e.1 e.2).2 = CClass.fail then confirmActive env rest
      else (e.1, (confirmStep env e.1 e.2).1) :: confirmActive env rest := by
  unfold confirmActive
  rw [List.map_cons, List.filter_cons]
  split
  · rename_i hcond
    rw [if_neg (by simpa using hcond), List.map_cons]
  · rename_i hcond
    rw [if_pos (by simpa using hcond)]

/-- The keys of the confirmed active map come from the input map. -/
theorem confirmActive_keys_sub (env : ConfirmEnv) :
    ∀ (m : List (String × Position)) (k : String),
      k ∈ (confirmActive env m).map Prod.fst → k ∈ m.map Prod.fst := by
  intro m
  induction m with
  | nil => intro k h; exact absurd h (by simp [confirmActive])
  | cons e rest ih =>
    intro k h
    rw [confirmActive_cons] at h
    split at h
    · exact List.mem_cons_of_mem _ (ih k h)
    · rw [List.map_cons] at h
      rcases List.mem_cons.mp h with h1 | h1
      · exact List.mem_cons.mpr (Or.inl h1)
      · exact List.mem_cons_of_mem _ (ih k h1)

/-- After the confirmation pass, a uniquely-keyed position classified as failed
is no longer found in the active map. -/
theorem confirmActive_lookup_none (env : ConfirmEnv) (addr : String) (p : Position)
    (hfail : (confirmStep env addr p).2 = CClass.fail) :
    ∀ (m : List (String × Position)), (m.map Prod.fst).Nodup → (addr, p) ∈ m →
      (confirmActive env m).lookup addr = none := by
  intro m
  induction m with
  | nil => intro _ hmem; cases hmem
  | cons e rest ih =>
    intro hnd hmem
    rw [List.map_cons, List.nodup_cons] at hnd
    rcases List.mem_cons.mp hmem with h1 | h1
    · have hkey : e.1 = addr := by rw [← h1]
      have hval : e.2 = p := by rw [← h1]
      rw [confirmActive_cons, hkey, hval, if_pos hfail]
      refine lookup_none_of_not_mem_keys addr _ (fun hc => hnd.1 ?_)
      rw [hkey]
      exact confirmActive_keys_sub env rest addr hc
    · have hkne : e.1 ≠ addr := by
        intro hk
        exact hnd.1 (hk ▸ (List.mem_map_of_mem Prod.fst h1))
      rw [confirmActive_cons]
      split
      · exact ih hnd.2 h1
      · have hb : (addr == e.1) = false := beq_eq_false_iff_ne.mpr (Ne.symm hkne)
        simp only [List.lookup, hb]
        exact ih hnd.2 h1

/-- A failed position's updated record lands in the `failed_buy` history. -/
theorem confirmFailedHist_mem (env : ConfirmEnv) (m : List (String × Position))
    (addr : String) (p : Position) (hmem : (addr, p) ∈ m)
    (hfail : (confirmStep env addr p).2 = CClass.fail) :
    ((confirmStep env addr p).1, "failed_buy") ∈ confirmFailedHist env m := by
  unfold confirmFailedHist
  have h1 : (addr, confirmStep env addr p) ∈
      m.map (fun e => (e.1, confirmStep env e.1 e.2)) :=
    List.mem_map_of_mem (fun e => (e.1, confirmStep env e.1 e.2)) hmem
  have h2 : (addr, confirmStep env addr p) ∈
      (m.map (fun e => (e.1, confirmStep env e.1 e.2))).filter
        (fun e => decide (e.2.2 = CClass.fail)) :=
    List.mem_filter.mpr ⟨h1, by simpa using hfail⟩
  exact List.mem_map_of_mem (fun e => (e.2.1, "failed_buy")) h2

/-- The per-position confirmation step on a pending position whose transaction
is confirmed but whose on-chain balance is zero. -/
theorem confirmStep_no_tokens (env : ConfirmEnv) (addr : String) (p : Position)
    (hpend : p.status = "pending") (htx : pyTruthyS p.tx_id = true)
    (hconf : env.txStatus (p.tx_id.getD "") = "confirmed")
    (hbal : env.tokenBalance addr = 0) :
    confirmStep env addr p =
      ({ p with confirmation_attempts := p.confirmation_attempts + 1,
                status := "failed", failure_reason := some "no_tokens_received" },
       CClass.fail) := by
  unfold confirmStep
  rw [if_neg (by simp [hpend]), if_neg (by simp [htx]), if_pos hconf, hbal,
    if_neg (by norm_num)]

/-- C9: a pending position whose confirmation poll reports `confirmed` with an
on-chain balance of zero is marked `failed` with reason `no_tokens_received`,
removed from the active map and appended to the trade history as a
`failed_buy`; it never becomes `open`. -/
theorem C9_no_tokens_received (env : ConfirmEnv) (st : TMState) (addr : String)
    (p : Position) (hmem : (addr, p) ∈ st.active)
    (hnd : (st.active.map Prod.fst).Nodup)
    (hpend : p.status = "pending") (htx : pyTruthyS p.tx_id = true)
    (hconf : env.txStatus (p.tx_id.getD "") = "confirmed")
    (hbal : env.tokenBalance addr = 0) :
    (confirmAll env st).active.lookup addr = none
  ∧ ((confirmStep env addr p).1, "failed_buy") ∈ (confirmAll env st).history
  ∧ (confirmStep env addr p).1.status = "failed"
  ∧ (confirmStep env addr p).1.failure_reason = some "no_tokens_received" := by
  have hstep := confirmStep_no_tokens env addr p hpend htx hconf hbal
  have hfail : (confirmStep env addr p).2 = CClass.fail := by rw [hstep]
  refine ⟨?_, ?_, ?_, ?_⟩
  · exact confirmActive_lookup_none env addr p hfail st.active hnd hmem
  · exact List.mem_append_right st.history (confirmFailedHist_mem env st.active addr p hmem hfail)
  · rw [hstep]
  · rw [hstep]

/-- Concrete pending position, state and environment for the C9 witness. -/
def c9pos : Position :=
  { token_address := some "tok", token_symbol := "TOK", entry_price := some 1,
    entry_time := some 0, tx_id := some "sig1", status := "pending",
    expected_tokens := some 1000 }

/-- Environment whose confirmation poll confirms every signature while the
wallet holds zero tokens. -/
def c9env : ConfirmEnv := { txStatus := fun _ => "confirmed", tokenBalance := fun _ => 0 }

/-- State holding only the pending C9 position. -/
def c9st : TMState := { active := [("tok", c9pos)] }

/-- C9 witness: the concrete confirmation pass removes the position and records
the no-tokens failure in the history. -/
theorem C9_witness :
    (confirmAll c9env c9st).active.lookup "tok" = none
  ∧ ((confirmStep c9env "tok" c9pos).1, "failed_buy") ∈ (confirmAll c9env c9st).history
  ∧ (confirmStep c9env "tok" c9pos).1.status = "failed"
  ∧ (confirmStep c9env "tok" c9pos).1.failure_reason = some "no_tokens_received" :=
  C9_no_tokens_received c9env c9st "tok" c9pos (by simp [c9st])
    (by simp [c9st]) (by decide) (by decide) (by decide) (by decide)

/-! ### C1 — terminal full-sell failure handling -/

/-- Erasing a key removes it from lookup. -/
theorem lookup_mapErase_self (k : String) :
    ∀ (m : List (String × Position)), (mapErase m k).lookup k = none := by
  intro m
  induction m with
  | nil => rfl
  | cons e rest ih =>
    unfold mapErase at ih ⊢
    rw [List.filter_cons]
    split
    · rename_i h
      have hne : e.1 ≠ k := of_decide_eq_true h
      have hb : (k == e.1) = false := beq_eq_false_iff_ne.mpr (Ne.symm hne)
      simp only [List.lookup, hb]
      exact ih
    · exact ih

/-- The full-sell path on retry exhaustion with a non-high-impact error:
the position is marked failed, logged as a `failed_sell`, and removed. -/
theorem executeSniperSell_fail_eq (cfg : Config) (env : SellEnv) (st : TMState)
    (addr reason : String) (p : Position) (msg : String)
    (hp : st.active.lookup addr = some p)
    (hpause : env.paused = false)
    (hbal : 0 < env.full_token_balance)
    (htb : 0 < pyTrunc (env.full_token_balance * cfg.dust_reduction_factor))
    (hchunk : (shouldChunkSell cfg
      (pyTrunc (env.full_token_balance * cfg.dust_reduction_factor)) p).1 = false)
    (hretry : sellWithRetry cfg.max_retries cfg.max_retries env.attempts = (none, some msg))
    (himp : strContains msg "High price impact" = false) :
    executeSniperSell cfg env st addr reason =
      ({ active := mapErase st.active addr,
         history := st.history ++
           [({ p with status := "failed", exit_reason := some (reason ++ "_failed"),
                      sell_error := some msg,
                      sell_attempts := cfg.max_retries }, "failed_sell")] },
       Except.error ("Sell execution failed: " ++ msg)) := by
  unfold executeSniperSell
  rw [hp]
  dsimp only
  rw [hpause]
  rw [if_neg (by simp)]
  rw [if_neg (not_le.mpr hbal)]
  rw [if_neg (not_le.mpr htb)]
  rw [hchunk]
  rw [if_neg (by simp)]
  rw [hretry]
  dsimp only [Option.getD_some]
  rw [himp]
  rw [if_neg (by simp)]

/-- C1 (amended): when the full-sell retry loop exhausts its attempts with a
failure that is not a high-price-impact failure, the position is NOT left in
its prior state: whether or not any sell transaction was submitted, it is
marked `failed` (exit reason `<reason>_failed`), appended to the trade history
as a `failed_sell`, and removed from the active-position map, so it cannot be
retried on a later monitoring cycle; only a high-price-impact exhaustion
avoids this by falling back to a chunked sell, and a submitted transaction
finalizes the position as closed. -/
theorem C1_terminal_sell_failure (cfg : Config) (env : SellEnv) (st : TMState)
    (addr reason : String) (p : Position) (msg : String)
    (hp : st.active.lookup addr = some p)
    (hpause : env.paused = false)
    (hbal : 0 < env.full_token_balance)
    (htb : 0 < pyTrunc (env.full_token_balance * cfg.dust_reduction_factor))
    (hchunk : (shouldChunkSell cfg
      (pyTrunc (env.full_token_balance * cfg.dust_reduction_factor)) p).1 = false)
    (hretry : sellWithRetry cfg.max_retries cfg.max_retries env.attempts = (none, some msg))
    (himp : strContains msg "High price impact" = false) :
    (executeSniperSell cfg env st addr reason).1.active.lookup addr = none
  ∧ ({ p with status := "failed", exit_reason := some (reason ++ "_failed"),
              sell_error := some msg, sell_attempts := cfg.max_retries }, "failed_sell")
      ∈ (executeSniperSell cfg env st addr reason).1.history
  ∧ ∃ e, (executeSniperSell cfg env st addr reason).2 = Except.error e := by
  have hkey := executeSniperSell_fail_eq cfg env st addr reason p msg hp hpause hbal htb
    hchunk hretry himp
  refine ⟨?_, ?_, ?_⟩
  · rw [hkey]
    exact lookup_mapErase_self addr st.active
  · rw [hkey]
    exact List.mem_append_right st.history (List.mem_singleton_self _)
  · exact ⟨_, by rw [hkey]⟩

/-- Open position used in the C1 counterexample. -/
def c1pos : Position :=
  { token_address := some "tok", token_symbol := "TOK", entry_price := some 1,
    status := "open", usd_amount := some 10, initial_liquidity := some 50000 }

/-- State holding only the C1 position. -/
def c1st : TMState := { active := [("tok", c1pos)] }

/-- Environment in which every sell quote fetch fails (no transaction is ever
submitted) while the wallet holds 1000 tokens. -/
def c1env : SellEnv := { full_token_balance := 1000, attempts := fun _ => SellAttempt.quoteFail }

/-- The retry exhaustion of the C1 scenario: the quote keeps failing and the
terminal error is not a high-price-impact message. -/
theorem c1retry_eval :
    sellWithRetry ({} : Config).max_retries ({} : Config).max_retries c1env.attempts =
      (none, some "Failed to get quote after retries")
  ∧ strContains "Failed to get quote after retries" "High price impact" = false := by
  constructor <;> decide

/-- C1 counterexample: with a position in the active map and every sell attempt
failing to even obtain a quote (so no transaction was submitted), the claim
requires the position to stay in the active map in its prior state — but the
code removes it and marks it failed. -/
theorem C1_counterexample :
    (c1st.active.lookup "tok").isSome = true
  ∧ (executeSniperSell {} c1env c1st "tok" "target").1.active.lookup "tok" = none
  ∧ (executeSniperSell {} c1env c1st "tok" "target").1.history.map
      (fun e => (e.1.status, e.2)) = [("failed", "failed_sell")] := by
  have hkey := executeSniperSell_fail_eq {} c1env c1st "tok" "target" c1pos
    "Failed to get quote after retries" (by decide) (by decide)
    (by norm_num [c1env]) (by norm_num [c1env, pyTrunc])
    (by norm_num [c1env, c1pos, shouldChunkSell, pyTrunc]) c1retry_eval.1 c1retry_eval.2
  refine ⟨by decide, ?_, ?_⟩
  · rw [hkey]
    exact lookup_mapErase_self "tok" c1st.active
  · rw [hkey]
    rfl

/-- C1 witness: the amended behaviour at the concrete C1 scenario. -/
theorem C1_witness :
    (executeSniperSell {} c1env c1st "tok" "shutdown").1.active.lookup "tok" = none
  ∧ ({ c1pos with status := "failed", exit_reason := some ("shutdown" ++ "_failed"),
                  sell_error := some "Failed to get quote after retries",
                  sell_attempts := ({} : Config).max_retries }, "failed_sell")
      ∈ (executeSniperSell {} c1env c1st "tok" "shutdown").1.history
  ∧ ∃ e, (executeSniperSell {} c1env c1st "tok" "shutdown").2 = Except.error e :=
  C1_terminal_sell_failure {} c1env c1st "tok" "shutdown" c1pos
    "Failed to get quote after retries" (by decide) (by decide)
    (by norm_num [c1env]) (by norm_num [c1env, pyTrunc])
    (by norm_num [c1env, c1pos, shouldChunkSell, pyTrunc]) c1retry_eval.1 c1retry_eval.2

/-! ### C3 — sold-fraction and remaining-token invariants -/

/-- Updating a present key makes lookup return the new value. -/
theorem lookup_mapUpdate (k : String) (v : Position) :
    ∀ (m : List (String × Position)) (p : Position), m.lookup k = some p →
      (mapUpdate m k v).lookup k = some v := by
  intro m
  induction m with
  | nil => intro p h; exact Option.noConfusion h
  | cons e rest ih =>
    intro p h
    unfold mapUpdate
    rw [List.map_cons]
    by_cases hk : e.1 = k
    · rw [if_pos hk]
      simp only [List.lookup, beq_self_eq_true]
    · rw [if_neg hk]
      have hb : (k == e.1) = false := beq_eq_false_iff_ne.mpr (Ne.symm hk)
      simp only [List.lookup, hb] at h ⊢
      exact ih p h

/-- The `remaining_tokens` initialisation of a partial sell yields the
position's remaining tokens, defaulting to actual then expected tokens. -/
theorem pinit_remaining (p : Position) :
    (if p.remaining_tokens = none then
        { p with remaining_tokens := some (p.actual_tokens.getD (p.expected_tokens.getD 0)) }
      else p).remaining_tokens =
      some (p.remaining_tokens.getD (p.actual_tokens.getD (p.expected_tokens.getD 0))) := by
  cases hrt : p.remaining_tokens with
  | none => rw [if_pos rfl]; rfl
  | some r => rw [if_neg (by simp), hrt]; rfl

/-- The `remaining_tokens` initialisation leaves the sold fraction alone. -/
theorem pinit_sold (p : Position) :
    (if p.remaining_tokens = none then
        { p with remaining_tokens := some (p.actual_tokens.getD (p.expected_tokens.getD 0)) }
      else p).total_sold_ratio = p.total_sold_ratio := by
  split <;> rfl

/-- One confirmation step never makes the remaining tokens negative. -/
theorem confirmStep_remaining_nonneg (cenv : ConfirmEnv) (addr : String) (q : Position)
    (h : 0 ≤ q.remaining_tokens.getD 0) (hb : 0 ≤ cenv.tokenBalance addr) :
    0 ≤ (confirmStep cenv addr q).1.remaining_tokens.getD 0 := by
  unfold confirmStep
  split
  · exact h
  · split
    · exact h
    · dsimp only
      split
      · split
        · simpa using hb
        · exact h
      · split
        · exact h
        · split
          · exact h
          · exact h

/-- A confirmation pass keeps every remaining-token count nonnegative. -/
theorem confirmActive_remaining_nonneg (cenv : ConfirmEnv) :
    ∀ (m : List (String × Position)), (∀ a, 0 ≤ cenv.tokenBalance a) →
      (∀ e ∈ m, 0 ≤ e.2.remaining_tokens.getD 0) →
      ∀ e ∈ confirmActive cenv m, 0 ≤ e.2.remaining_tokens.getD 0 := by
  intro m
  induction m with
  | nil => intro _ _ e he; exact absurd he (by simp [confirmActive])
  | cons a rest ih =>
    intro hb hall e he
    rw [confirmActive_cons] at he
    split at he
    · exact ih hb (fun x hx => hall x (List.mem_cons_of_mem a hx)) e he
    · rcases List.mem_cons.mp he with h1 | h1
      · rw [h1]
        exact confirmStep_remaining_nonneg cenv a.1 a.2
          (hall a (List.mem_cons_self a rest)) (hb a.1)
      · exact ih hb (fun x hx => hall x (List.mem_cons_of_mem a hx)) e h1

/-- The lazy initialisation of the sold fraction does not change its value. -/
theorem sold_init_getD (o : Option ℚ) :
    (if o = none then some (0 : ℚ) else o).getD 0 = o.getD 0 := by
  cases o <;> simp

/-- C3 (amended): during a partial sell with a nonnegative exit fraction the
sold fraction never decreases and stays nonnegative, it stays at most 1
provided the fraction does not exceed `1 - total_sold_ratio` (which is what
the monitoring/scaled-exit path supplies — the controller itself does not
clamp), and the remaining tokens stay nonnegative and never increase; and a
confirmation pass keeps every remaining-token count nonnegative (it may
however increase `remaining_tokens` to the actual on-chain balance). -/
theorem C3_invariants_amended
    (cfg : Config) (env : PartialEnv) (st : TMState) (addr reason : String)
    (frac : ℚ) (p : Position) (cenv : ConfirmEnv) (cst : TMState)
    (hp : st.active.lookup addr = some p)
    (hpause : env.paused = false)
    (hsold0 : 0 ≤ p.total_sold_ratio.getD 0) (hsold1 : p.total_sold_ratio.getD 0 ≤ 1)
    (hfrac0 : 0 ≤ frac) (hfrac1 : frac ≤ 1 - p.total_sold_ratio.getD 0)
    (hrem0 : 0 ≤ p.remaining_tokens.getD (p.actual_tokens.getD (p.expected_tokens.getD 0)))
    (hbal : 0 ≤ env.actual_balance) :
    (∀ q, (executePartialSell cfg env st addr reason frac).1.active.lookup addr = some q →
        0 ≤ q.total_sold_ratio.getD 0 ∧ q.total_sold_ratio.getD 0 ≤ 1 ∧
        p.total_sold_ratio.getD 0 ≤ q.total_sold_ratio.getD 0 ∧
        0 ≤ q.remaining_tokens.getD 0 ∧
        q.remaining_tokens.getD 0 ≤
          p.remaining_tokens.getD (p.actual_tokens.getD (p.expected_tokens.getD 0)))
  ∧ ((∀ a, 0 ≤ cenv.tokenBalance a) →
      (∀ e ∈ cst.active, 0 ≤ e.2.remaining_tokens.getD 0) →
      ∀ e ∈ (confirmAll cenv cst).active, 0 ≤ e.2.remaining_tokens.getD 0) := by
  constructor
  · intro q hq
    unfold executePartialSell at hq
    rw [hp] at hq
    dsimp only at hq
    rw [hpause, if_neg (by simp)] at hq
    rw [pinit_remaining p, pinit_sold p, Option.getD_some,
      sold_init_getD] at hq
    have hP1sold : (if p.remaining_tokens = none then
        { p with remaining_tokens := some (p.actual_tokens.getD (p.expected_tokens.getD 0)) }
        else p).total_sold_ratio.getD 0 = p.total_sold_ratio.getD 0 := by
      rw [pinit_sold p]
    have hP1rem : (if p.remaining_tokens = none then
        { p with remaining_tokens := some (p.actual_tokens.getD (p.expected_tokens.getD 0)) }
        else p).remaining_tokens.getD 0 =
        p.remaining_tokens.getD (p.actual_tokens.getD (p.expected_tokens.getD 0)) := by
      rw [pinit_remaining p, Option.getD_some]
    split at hq
    · rw [lookup_mapUpdate addr _ st.active p hp] at hq
      obtain rfl : _ = q := Option.some_inj.mp hq
      rw [hP1sold, hP1rem]
      exact ⟨hsold0, hsold1, le_refl _, hrem0, le_refl _⟩
    · split at hq
      · rw [lookup_mapUpdate addr _ st.active p hp] at hq
        obtain rfl : _ = q := Option.some_inj.mp hq
        rw [hP1sold, hP1rem]
        exact ⟨hsold0, hsold1, le_refl _, hrem0, le_refl _⟩
      · split at hq
        · rw [lookup_mapUpdate addr _ st.active p hp] at hq
          obtain rfl : _ = q := Option.some_inj.mp hq
          rw [hP1sold, hP1rem]
          exact ⟨hsold0, hsold1, le_refl _, hrem0, le_refl _⟩
        · rename_i hrguard hsguard xpair txid hsnd heq
          rw [lookup_mapUpdate addr _ st.active p hp] at hq
          obtain rfl : _ = q := Option.some_inj.mp hq
          rw [not_le] at hrguard hsguard
          dsimp only [Option.getD_some]
          have hsell0 : (0 : ℚ) ≤
              (pyTrunc ((pyTrunc (p.remaining_tokens.getD
                (p.actual_tokens.getD (p.expected_tokens.getD 0)) *
                cfg.dust_reduction_factor) : ℚ) * frac) : ℤ) := by
            exact_mod_cast le_of_lt hsguard
          refine ⟨by linarith, by linarith, by linarith, ?_, ?_⟩
          · split
            · exact hbal
            · exact le_max_left 0 _
          · split
            · rename_i hlt
              refine le_trans (le_of_lt hlt) (max_le hrem0 (by linarith))
            · exact max_le hrem0 (by linarith)
  · intro hb hall e he
    exact confirmActive_remaining_nonneg cenv cst.active hb hall e he

/-- Position with half its tokens already sold, for the C3 counterexample. -/
def c3pos : Position :=
  { token_address := some "tok", token_symbol := "TOK", entry_price := some 1,
    status := "open", remaining_tokens := some 1000000, total_sold_ratio := some (1/2) }

/-- State holding only the C3 position. -/
def c3st : TMState := { active := [("tok", c3pos)] }

/-- Environment in which the partial sell succeeds on the first attempt. -/
def c3env : PartialEnv :=
  { attempts := fun _ => SellAttempt.success "tx1", actual_balance := 104500 }

/-- C3 counterexample: `execute_partial_sell` does not clamp the sold fraction.
Calling it with `exit_ratio = 0.9` on a position with `total_sold_ratio = 0.5`
leaves `total_sold_ratio = 1.4 > 1` in the active map, violating the claimed
invariant `total_sold_ratio ≤ 1` over sequences of controller operations. -/
theorem C3_counterexample :
    ((executePartialSell {} c3env c3st "tok" "strategy" (9/10)).1.active.lookup "tok").map
      Position.total_sold_ratio = some (some (7/5))
  ∧ ¬ ((7 : ℚ)/5 ≤ 1) := by
  refine ⟨?_, by norm_num⟩
  unfold executePartialSell
  rw [show c3st.active.lookup "tok" = some c3pos from rfl]
  dsimp only
  rw [show c3env.paused = false from rfl, if_neg (by simp)]
  rw [pinit_remaining c3pos, pinit_sold c3pos, Option.getD_some, sold_init_getD]
  rw [if_neg (by norm_num [c3pos])]
  rw [if_neg (by norm_num [c3pos, pyTrunc])]
  rw [show sellWithRetry ({} : Config).max_retries ({} : Config).max_retries c3env.attempts =
      (some "tx1", none) from by decide]
  dsimp only
  rw [lookup_mapUpdate "tok" _ c3st.active c3pos rfl]
  simp only [Option.map_some']
  norm_num [c3pos, c3env, pyTrunc]

/-- Fresh position for the C3 witness. -/
def c3wpos : Position :=
  { token_address := some "tok", entry_price := some 1, status := "open",
    remaining_tokens := some 1000, total_sold_ratio := some 0 }

/-- State holding only the C3 witness position. -/
def c3wst : TMState := { active := [("tok", c3wpos)] }

/-- Environment in which the C3 witness partial sell succeeds. -/
def c3wenv : PartialEnv :=
  { attempts := fun _ => SellAttempt.success "tx2", actual_balance := 500 }

/-- Confirmation environment with nonnegative balances, for the C3 witness. -/
def c3cenv : ConfirmEnv := { txStatus := fun _ => "pending", tokenBalance := fun _ => 0 }

/-- C3 witness: the amended invariants at a concrete in-range partial sell. -/
theorem C3_witness :
    (∀ q, (executePartialSell {} c3wenv c3wst "tok" "r" (1/2)).1.active.lookup "tok" = some q →
        0 ≤ q.total_sold_ratio.getD 0 ∧ q.total_sold_ratio.getD 0 ≤ 1 ∧
        c3wpos.total_sold_ratio.getD 0 ≤ q.total_sold_ratio.getD 0 ∧
        0 ≤ q.remaining_tokens.getD 0 ∧
        q.remaining_tokens.getD 0 ≤
          c3wpos.remaining_tokens.getD (c3wpos.actual_tokens.getD (c3wpos.expected_tokens.getD 0)))
  ∧ ((∀ a, 0 ≤ c3cenv.tokenBalance a) →
      (∀ e ∈ ({} : TMState).active, 0 ≤ e.2.remaining_tokens.getD 0) →
      ∀ e ∈ (confirmAll c3cenv {}).active, 0 ≤ e.2.remaining_tokens.getD 0) :=
  C3_invariants_amended {} c3wenv c3wst "tok" "r" (1/2) c3wpos c3cenv {}
    rfl rfl (by norm_num [c3wpos]) (by norm_num [c3wpos]) (by norm_num)
    (by norm_num [c3wpos]) (by norm_num [c3wpos]) (by norm_num [c3wenv])

end SolanaSniper
